import Mathlib

/-!
Shallow embedding of `src/matlab/bayesoptextras.h` (kazk1018/bayesopt): the
Matlab/Octave wrapper helpers of the BayesOptimization library.  The file
contains four field accessors (`struct_value`, `struct_array`, `struct_size`,
`struct_string`), the callback bridge `user_function`, and the parameter
loader `load_parameters`.

Host (mex) values are modelled by `MxArray`: the only observations the code
makes on a host value are `mxIsNumeric`, `mxIsComplex`, `mxIsChar`,
`mxIsDouble`, `mxGetM`, `mxGetN`, `mxGetScalar`, `mxGetPr` and
`mxArrayToString`, so the model records exactly those.  Numeric data is
modelled by `Rat` (the code performs no arithmetic on the doubles it copies;
only the `(size_t)` cast in `struct_size` truncates, which `Rat` represents
exactly).  `mexErrMsgTxt` aborts the current mex call, so every operation is
embedded in `Except MexErr`; the message strings are the ones in the source.
Out-parameter mutation is embedded as explicit value passing, and fixed C
buffers are lists: a `memcpy` of `cnt` elements overwrites the first `cnt`
entries of the destination (`memcpyList`), and a copy of more elements than
the destination holds shows up as a longer list — the model's image of
writing past the end of the buffer.
-/

/-- Model of a mex `mxArray`: exactly the observations `bayesoptextras.h`
makes on a host value.  `re` is the real data exposed by `mxGetPr`, `chars`
the text exposed by `mxArrayToString`. -/
structure MxArray where
  isNumeric : Bool
  isComplex : Bool
  isChar : Bool
  isDouble : Bool
  m : Nat
  n : Nat
  re : List Rat
  chars : String
deriving DecidableEq, Repr, Inhabited

def mxGetM (a : MxArray) : Nat := a.m

def mxGetN (a : MxArray) : Nat := a.n

def mxGetScalar (a : MxArray) : Rat := a.re.headI

def mxGetPr (a : MxArray) : List Rat := a.re

def mxArrayToString (a : MxArray) : String := a.chars

/-- A configuration object: a struct mxArray, modelled as an association
list from field name to value.  `mxGetField` returns the first binding. -/
abbrev MxStruct := List (String × MxArray)

def mxGetField (s : MxStruct) (name : String) : Option MxArray :=
  (s.find? (fun p => p.1 == name)).map Prod.snd

/-- An abort raised through `mexErrMsgTxt msg`. -/
inductive MexErr where
  | errMsg : String → MexErr
deriving DecidableEq, Repr

/-- Model of `memcpy(dst, src, cnt * sizeof(double))` on buffers viewed as
lists: the first `cnt` entries of `dst` are overwritten by `src`.  When
`cnt` exceeds `dst.length` the result is longer than `dst`: the copy ran
past the end of the destination buffer. -/
def memcpyList (dst src : List Rat) (cnt : Nat) : List Rat :=
  src.take cnt ++ dst.drop cnt

/-- The C cast `(size_t) x` applied to a double: truncation toward zero,
with the result reduced modulo `2 ^ 64` (the value is implementation-defined
for arguments outside the `size_t` range; the model wraps). -/
def doubleToSizeT (q : Rat) : Nat :=
  ((q.num.tdiv (q.den : Int)) % (2 ^ 64 : Int)).toNat

/-- The scalar-shape test shared by `struct_value` and `struct_size`:
`mxIsNumeric(val) && !mxIsComplex(val) && mxGetM(val)*mxGetN(val) == 1`. -/
def isRealScalar (val : MxArray) : Bool :=
  val.isNumeric && !val.isComplex && (mxGetM val * mxGetN val == 1)

/-- Embedding of `struct_value`: reads field `name` of `s` into the caller's
double.  `result` is the caller's current value (the engine default); it is
returned unchanged when the field is absent. -/
def struct_value (s : MxStruct) (name : String) (result : Rat) :
    Except MexErr Rat :=
  match mxGetField s name with
  | some val =>
      if isRealScalar val then .ok (mxGetScalar val)
      else .error (.errMsg "param fields must be real scalars")
  | none => .ok result

/-- Embedding of `struct_size`: like `struct_value` but the scalar is stored
through `(size_t) mxGetScalar(val)` — a bare truncating cast, with no
non-negativity or range check. -/
def struct_size (s : MxStruct) (name : String) (result : Nat) :
    Except MexErr Nat :=
  match mxGetField s name with
  | some val =>
      if isRealScalar val then .ok (doubleToSizeT (mxGetScalar val))
      else .error (.errMsg "param fields must be real scalars")
  | none => .ok result

/-- Embedding of `struct_array`: on a present numeric non-complex field the
element count `mxGetM*mxGetN` is stored through `*n` and that many doubles
are `memcpy`ed into the caller's buffer, with no comparison against the
buffer's capacity.  Returns the pair (count, buffer) after the call. -/
def struct_array (s : MxStruct) (name : String) (count : Nat)
    (result : List Rat) : Except MexErr (Nat × List Rat) :=
  match mxGetField s name with
  | some val =>
      if val.isNumeric && !val.isComplex then
        let cnt := mxGetM val * mxGetN val
        .ok (cnt, memcpyList result (mxGetPr val) cnt)
      else .error (.errMsg "Param fields must be vector")
  | none => .ok (count, result)

/-- Embedding of `struct_string`.  In the source the extracted text is
assigned to the local pointer parameter `result`
(`result = mxArrayToString(val);`) and never reaches the caller, so on every
non-error path the caller's buffer — returned here — is unchanged.  The
assignment to the local is retained as a dead binding to mirror the source. -/
def struct_string (s : MxStruct) (name : String) (result : String) :
    Except MexErr String :=
  match mxGetField s name with
  | some val =>
      if val.isChar then
        let _local_result := mxArrayToString val
        .ok result
      else .error (.errMsg "Method name must be a string")
  | none => .ok result

/-- Modelled from the spec: the surrogate-model type enumeration of
`parameters.h`, which is not part of this fragment.  The spec fixes only
that it is a closed enumeration exchanged with the caller as text. -/
inductive SurrogateName where
  | sGaussianProcess
  | sGaussianProcessNormal
  | sStudentTProcess
deriving DecidableEq, Repr, Inhabited

/-- Modelled from the spec: `surrogate2str` of `parameters.h` renders a
surrogate-type enumeration value as its text name. -/
def surrogate2str : SurrogateName → String
  | .sGaussianProcess => "GAUSSIAN_PROCESS"
  | .sGaussianProcessNormal => "GAUSSIAN_PROCESS_NORMAL"
  | .sStudentTProcess => "STUDENT_T_PROCESS"

/-- Modelled from the spec: `str2surrogate` of `parameters.h` parses a text
name back into the enumeration; unknown text is a fatal validation error. -/
def str2surrogate (s : String) : Except MexErr SurrogateName :=
  if s = "GAUSSIAN_PROCESS" then .ok .sGaussianProcess
  else if s = "GAUSSIAN_PROCESS_NORMAL" then .ok .sGaussianProcessNormal
  else if s = "STUDENT_T_PROCESS" then .ok .sStudentTProcess
  else .error (.errMsg "Error: surrogate name not valid")

/-- Modelled from the spec: the learning/estimation type enumeration of
`parameters.h`, not part of this fragment. -/
inductive LearningType where
  | lFixed
  | lEmpirical
  | lMCMC
deriving DecidableEq, Repr, Inhabited

/-- Modelled from the spec: `learn2str` of `parameters.h`. -/
def learn2str : LearningType → String
  | .lFixed => "L_FIXED"
  | .lEmpirical => "L_EMPIRICAL"
  | .lMCMC => "L_MCMC"

/-- Modelled from the spec: `str2learn` of `parameters.h`; unknown text is a
fatal validation error. -/
def str2learn (s : String) : Except MexErr LearningType :=
  if s = "L_FIXED" then .ok .lFixed
  else if s = "L_EMPIRICAL" then .ok .lEmpirical
  else if s = "L_MCMC" then .ok .lMCMC
  else .error (.errMsg "Error: learning type not valid")

/-- The kernel sub-record of `bopt_params`: fixed-capacity buffers `theta`
and `s_theta` (capacity is the list length supplied by the default record),
their shared length field `n_theta`, and the kernel name. -/
structure KernelParameters where
  theta : List Rat
  s_theta : List Rat
  n_theta : Nat
  name : String
deriving DecidableEq, Repr

/-- The mean sub-record of `bopt_params`: buffers `mu` and `s_mu`, the
length field `n_mu`, and the mean-function name. -/
structure MeanParameters where
  mu : List Rat
  s_mu : List Rat
  n_mu : Nat
  name : String
deriving DecidableEq, Repr

/-- The native parameter record `bopt_params`, with the fields
`bayesoptextras.h` touches. -/
structure BoptParams where
  n_iterations : Nat
  n_inner_iterations : Nat
  n_init_samples : Nat
  verbose_level : Nat
  alpha : Rat
  beta : Rat
  noise : Rat
  kernel : KernelParameters
  mean : MeanParameters
  log_filename : String
  crit_name : String
  surr_name : SurrogateName
  l_type : LearningType
deriving DecidableEq, Repr

/-- Modelled from the spec: `initialize_parameters_to_default` of the engine
(`parameters.h`), not part of this fragment.  It supplies every default
value and every fixed capacity; the concrete values below are illustrative
(kernel capacity 5, mean capacity 5), and every theorem that can be stated
over an arbitrary default record is. -/
def initialize_parameters_to_default : BoptParams :=
  { n_iterations := 300
    n_inner_iterations := 500
    n_init_samples := 30
    verbose_level := 1
    alpha := 1
    beta := 1
    noise := mkRat 1 10000
    kernel := { theta := List.replicate 5 1
                s_theta := List.replicate 5 1
                n_theta := 1
                name := "kMaternISO3" }
    mean := { mu := List.replicate 5 1
              s_mu := List.replicate 5 1
              n_mu := 1
              name := "mConst" }
    log_filename := "bayesopt.log"
    crit_name := "cEI"
    surr_name := .sGaussianProcess
    l_type := .lFixed }

/-- Embedding of `load_parameters`.  The source mutates a `bopt_params`
obtained from `initialize_parameters_to_default()` field by field; here the
default record is an explicit argument (the engine factory is outside the
fragment) and each mutation is a rebinding.  `n_theta`/`n_mu` are the local
copies of the default lengths captured before any extraction, exactly as in
the source. -/
def load_parameters (defaults : BoptParams) (params : MxStruct) :
    Except MexErr BoptParams := do
  let n_theta := defaults.kernel.n_theta
  let n_mu := defaults.mean.n_mu
  let n_iterations ← struct_size params "n_iterations" defaults.n_iterations
  let n_inner_iterations ←
    struct_size params "n_inner_iterations" defaults.n_inner_iterations
  let n_init_samples ←
    struct_size params "n_init_iterations" defaults.n_init_samples
  let verbose_level ← struct_size params "verbose_level" defaults.verbose_level
  let alpha ← struct_value params "alpha" defaults.alpha
  let beta ← struct_value params "beta" defaults.beta
  let noise ← struct_value params "noise" defaults.noise
  let (k_n_theta, k_theta) ←
    struct_array params "theta" defaults.kernel.n_theta defaults.kernel.theta
  let (n_theta, k_s_theta) ←
    struct_array params "s_theta" n_theta defaults.kernel.s_theta
  if k_n_theta = n_theta then pure ()
  else throw (.errMsg "Error processing kernel parameters")
  let (m_n_mu, m_mu) ←
    struct_array params "mu" defaults.mean.n_mu defaults.mean.mu
  let (n_mu, m_s_mu) ←
    struct_array params "s_mu" n_mu defaults.mean.s_mu
  if m_n_mu = n_mu then pure ()
  else throw (.errMsg "Error processing mean parameters")
  let log_filename ←
    struct_string params "log_filename" defaults.log_filename
  let kernel_name ← struct_string params "kernel_name" defaults.kernel.name
  let mean_name ← struct_string params "mean_name" defaults.mean.name
  let crit_name ← struct_string params "crit_name" defaults.crit_name
  let s_str := surrogate2str defaults.surr_name
  let s_str ← struct_string params "surr_name" s_str
  let surr_name ← str2surrogate s_str
  let l_str := learn2str defaults.l_type
  let l_str ← struct_string params "l_type" l_str
  let l_type ← str2learn l_str
  return { n_iterations := n_iterations
           n_inner_iterations := n_inner_iterations
           n_init_samples := n_init_samples
           verbose_level := verbose_level
           alpha := alpha
           beta := beta
           noise := noise
           kernel := { theta := k_theta
                       s_theta := k_s_theta
                       n_theta := k_n_theta
                       name := kernel_name }
           mean := { mu := m_mu
                     s_mu := m_s_mu
                     n_mu := m_n_mu
                     name := mean_name }
           log_filename := log_filename
           crit_name := crit_name
           surr_name := surr_name
           l_type := l_type }

/-- The callback state `user_function_data`: the user function's name `f`,
the two result slots `plhs[0]`/`plhs[1]` (NULL modelled as `none`, and a
destroyed array reset to `none`), the outbound argument slots `prhs`, the
index `xrhs` of the slot receiving the current point, the argument count
`nrhs`, the verbosity flag and the evaluation counter `neval`. -/
structure UserFunctionData where
  f : String
  plhs0 : Option MxArray
  plhs1 : Option MxArray
  prhs : List MxArray
  xrhs : Nat
  nrhs : Nat
  verbose : Bool
  neval : Nat
deriving DecidableEq, Repr

/-- The host environment behind `mexCallMATLAB(nlhs, plhs, nrhs, prhs, f)`:
given the requested result count, the argument count, the argument slots and
the function name, it either fails (`none`, a nonzero return) or produces
the requested results. -/
abbrev MexHost := Nat → Nat → List MxArray → String → Option (List MxArray)

/-- Replace the element at index `i` (no-op when out of range), as the write
through `mxGetPr(d->prhs[d->xrhs])` replaces that slot's data in place. -/
def listModify (l : List MxArray) (i : Nat) (g : MxArray → MxArray) :
    List MxArray :=
  match l, i with
  | [], _ => []
  | a :: t, 0 => g a :: t
  | a :: t, j + 1 => a :: listModify t j g

/-- The outbound argument slots after `memcpy(mxGetPr(d->prhs[d->xrhs]), x,
n * sizeof(double))`: the slot at index `xrhs` has its data overwritten by
the `n`-vector `x`, every other slot is untouched. -/
def writePointBuffer (n : Nat) (x : List Rat) (d : UserFunctionData) :
    List MxArray :=
  listModify d.prhs d.xrhs (fun a => { a with re := memcpyList (mxGetPr a) x n })

/-- Everything one call to `user_function` produces: the returned value or
the abort, the callback state after the call, and the contents written into
the caller's gradient output buffer (`none` when the buffer was never
written). -/
structure UserFunctionResult where
  value : Except MexErr Rat
  state : UserFunctionData
  gradientOut : Option (List Rat)
deriving Repr

/-- Embedding of `user_function`, the native objective callback.  Mirrors
the source step for step: clear both result slots, `memcpy` the `n`-vector
`x` into `prhs[xrhs]`, call the host function requesting two results when a
gradient is wanted and one otherwise, validate the first result as a real
scalar and read it, destroy it, then (gradient only) validate the second
result as a real double `n`-vector, copy `n` doubles out and destroy it,
and only after all of that increment `neval`.  `mexErrMsgTxt` aborts the
call, leaving the state as mutated so far. -/
def user_function (host : MexHost) (n : Nat) (x : List Rat)
    (wantGradient : Bool) (d0 : UserFunctionData) : UserFunctionResult :=
  let d1 : UserFunctionData := { d0 with plhs0 := none, plhs1 := none }
  let d2 : UserFunctionData := { d1 with prhs := writePointBuffer n x d1 }
  match host (if wantGradient then 2 else 1) d2.nrhs d2.prhs d2.f with
  | none =>
      { value := .error (.errMsg "error calling user function")
        state := d2
        gradientOut := none }
  | some results =>
      let d3 : UserFunctionData :=
        { d2 with plhs0 := results.get? 0,
                  plhs1 := if wantGradient then results.get? 1 else none }
      match d3.plhs0 with
      | none =>
          { value := .error (.errMsg "user function must return real scalar")
            state := d3
            gradientOut := none }
      | some r0 =>
          if isRealScalar r0 then
            let f := mxGetScalar r0
            let d4 : UserFunctionData := { d3 with plhs0 := none }
            if wantGradient then
              match d4.plhs1 with
              | none =>
                  { value := .error
                      (.errMsg
                        "gradient vector from user function is the wrong size")
                    state := d4
                    gradientOut := none }
              | some r1 =>
                  if r1.isDouble && !r1.isComplex
                      && (mxGetM r1 == 1 || mxGetN r1 == 1)
                      && (mxGetM r1 * mxGetN r1 == n) then
                    let grad := (mxGetPr r1).take n
                    let d5 : UserFunctionData :=
                      { d4 with plhs1 := none, neval := d4.neval + 1 }
                    { value := .ok f, state := d5, gradientOut := some grad }
                  else
                    { value := .error
                        (.errMsg
                          "gradient vector from user function is the wrong size")
                      state := d4
                      gradientOut := none }
            else
              let d5 : UserFunctionData := { d4 with neval := d4.neval + 1 }
              { value := .ok f, state := d5, gradientOut := none }
          else
            { value := .error (.errMsg "user function must return real scalar")
              state := d3
              gradientOut := none }

/-- A real numeric 1x1 mxArray holding the double `q`. -/
def realScalar (q : Rat) : MxArray :=
  { isNumeric := true, isComplex := false, isChar := false, isDouble := true,
    m := 1, n := 1, re := [q], chars := "" }

/-- A real numeric `rows` x `cols` mxArray holding `data`. -/
def numArray (rows cols : Nat) (data : List Rat) : MxArray :=
  { isNumeric := true, isComplex := false, isChar := false, isDouble := true,
    m := rows, n := cols, re := data, chars := "" }

/-- A char mxArray holding `text`. -/
def charArray (text : String) : MxArray :=
  { isNumeric := false, isComplex := false, isChar := true, isDouble := false,
    m := 1, n := text.length, re := [], chars := text }

/-- Binding an `ok` value in the `Except` monad applies the continuation. -/
theorem except_bind_ok {α β : Type} (v : α) (k : α → Except MexErr β) :
    (Except.ok v >>= k) = k v := rfl

/-- Helper round trip for the modelled surrogate enumeration. -/
theorem str2surrogate_surrogate2str (s : SurrogateName) :
    str2surrogate (surrogate2str s) = .ok s := by cases s <;> rfl

/-- Helper round trip for the modelled learning-type enumeration. -/
theorem str2learn_learn2str (t : LearningType) :
    str2learn (learn2str t) = .ok t := by cases t <;> rfl

/-- The configuration-field names `load_parameters` looks up. -/
def paramFieldNames : List String :=
  ["n_iterations", "n_inner_iterations", "n_init_iterations", "verbose_level",
   "alpha", "beta", "noise", "theta", "s_theta", "mu", "s_mu",
   "log_filename", "kernel_name", "mean_name", "crit_name", "surr_name",
   "l_type"]

/-- C1: if every optional named field is absent from the configuration
object, `load_parameters` returns the engine's default Parameter Record
unchanged, field for field. -/
theorem load_parameters_all_fields_absent_returns_defaults
    (defaults : BoptParams) (config : MxStruct)
    (h : ∀ name ∈ paramFieldNames, mxGetField config name = none) :
    load_parameters defaults config = .ok defaults := by
  have h1 := h "n_iterations" (by simp [paramFieldNames])
  have h2 := h "n_inner_iterations" (by simp [paramFieldNames])
  have h3 := h "n_init_iterations" (by simp [paramFieldNames])
  have h4 := h "verbose_level" (by simp [paramFieldNames])
  have h5 := h "alpha" (by simp [paramFieldNames])
  have h6 := h "beta" (by simp [paramFieldNames])
  have h7 := h "noise" (by simp [paramFieldNames])
  have h8 := h "theta" (by simp [paramFieldNames])
  have h9 := h "s_theta" (by simp [paramFieldNames])
  have h10 := h "mu" (by simp [paramFieldNames])
  have h11 := h "s_mu" (by simp [paramFieldNames])
  have h12 := h "log_filename" (by simp [paramFieldNames])
  have h13 := h "kernel_name" (by simp [paramFieldNames])
  have h14 := h "mean_name" (by simp [paramFieldNames])
  have h15 := h "crit_name" (by simp [paramFieldNames])
  have h16 := h "surr_name" (by simp [paramFieldNames])
  have h17 := h "l_type" (by simp [paramFieldNames])
  simp [load_parameters, struct_size, struct_value, struct_array,
        struct_string, h1, h2, h3, h4, h5, h6, h7, h8, h9, h10, h11, h12,
        h13, h14, h15, h16, h17, str2surrogate_surrogate2str,
        str2learn_learn2str, except_bind_ok]

/-- Witness for C1: the empty configuration object leaves the modelled
default record untouched. -/
theorem load_parameters_all_fields_absent_witness :
    load_parameters initialize_parameters_to_default []
      = .ok initialize_parameters_to_default :=
  load_parameters_all_fields_absent_returns_defaults
    initialize_parameters_to_default [] (fun _ _ => rfl)

/-- A configuration whose `theta` and `s_theta` arrays hold 6 elements,
one more than the modelled fixed capacity (5) of the kernel buffers. -/
def overflowConfig : MxStruct :=
  [("theta", numArray 1 6 [2, 3, 4, 5, 6, 7]),
   ("s_theta", numArray 1 6 [1, 1, 1, 1, 1, 1])]

/-- C2: the code has no capacity check — on a 6-element `theta` against the
5-capacity kernel buffer, `load_parameters` copies all 6 elements (the
buffer in the returned record has grown past its capacity, the model's
image of `memcpy` past the end) and succeeds instead of failing with a
capacity error. -/
theorem load_parameters_copies_oversized_array_without_capacity_error :
    (load_parameters initialize_parameters_to_default overflowConfig).map
        (fun p => (p.kernel.n_theta, p.kernel.theta.length, p.kernel.theta))
      = .ok (6, 6, [2, 3, 4, 5, 6, 7])
    ∧ initialize_parameters_to_default.kernel.theta.length = 5 :=
  ⟨rfl, rfl⟩

/-- A configuration supplying only the string field `kernel_name`, with text
different from the default kernel name. -/
def kernelNameConfig : MxStruct := [("kernel_name", charArray "kMaternISO1")]

/-- C3: because `struct_string` assigns the extracted text to a local that
never escapes, a supplied `kernel_name` leaves the loaded record identical
to the defaults — the supplied string field does not change the record. -/
theorem load_parameters_ignores_supplied_string_field :
    load_parameters initialize_parameters_to_default kernelNameConfig
      = .ok initialize_parameters_to_default
    ∧ initialize_parameters_to_default.kernel.name ≠ "kMaternISO1" :=
  ⟨rfl, by decide⟩

/-- C7: rendering any surrogate-type enumeration member to text with
`surrogate2str` and parsing it back with `str2surrogate` yields the
original member, so the round trip `load_parameters` performs when
`surr_name` is absent is the identity. -/
theorem surrogate_roundtrip_identity (s : SurrogateName) :
    str2surrogate (surrogate2str s) = .ok s := by
  cases s <;> rfl

/-- C10: on a present real numeric scalar, `struct_size` stores the value
through a bare truncating `(size_t)` cast, with no non-negativity or range
check — it never fails, whatever the scalar's value. -/
theorem struct_size_casts_scalar_without_range_check
    (config : MxStruct) (name : String) (deflt : Nat) (val : MxArray)
    (h : mxGetField config name = some val)
    (hs : isRealScalar val = true) :
    struct_size config name deflt = .ok (doubleToSizeT (mxGetScalar val)) := by
  simp [struct_size, h, hs]

/-- A configuration supplying the negative fractional scalar -7/2 for the
count field `n_iterations`. -/
def negScalarConfig : MxStruct :=
  [("n_iterations", realScalar (mkRat (-7) 2))]

/-- Witness for C10: the count -7/2 is accepted without error; the C cast
truncates it to -3 and wraps it to 2^64 - 3. -/
theorem struct_size_negative_fractional_accepted :
    struct_size negScalarConfig "n_iterations" 300
      = .ok (doubleToSizeT (mxGetScalar (realScalar (mkRat (-7) 2))))
    ∧ doubleToSizeT (mkRat (-7) 2) = 2 ^ 64 - 3 :=
  ⟨struct_size_casts_scalar_without_range_check negScalarConfig "n_iterations"
      300 (realScalar (mkRat (-7) 2)) rfl rfl,
   by decide⟩

/-- Binding an error in the `Except` monad short-circuits. -/
theorem except_bind_error {α β : Type} (e : MexErr) (k : α → Except MexErr β) :
    ((Except.error e : Except MexErr α) >>= k) = Except.error e := rfl

/-- A `throw` in the `Except` monad is the error constructor. -/
theorem throw_eq_error {α : Type} (e : MexErr) :
    (throw e : Except MexErr α) = Except.error e := rfl

/-- The named field is absent or passes the real-scalar test — exactly the
configurations on which `struct_value`/`struct_size` cannot abort. -/
def scalarFieldOk (config : MxStruct) (name : String) : Bool :=
  match mxGetField config name with
  | some val => isRealScalar val
  | none => true

/-- On a `scalarFieldOk` field, `struct_size` succeeds. -/
theorem struct_size_ok_of_scalarFieldOk (config : MxStruct) (name : String)
    (deflt : Nat) (h : scalarFieldOk config name = true) :
    ∃ v, struct_size config name deflt = Except.ok v := by
  unfold struct_size
  cases hv : mxGetField config name with
  | none => exact ⟨deflt, rfl⟩
  | some val =>
      have h' : isRealScalar val = true := by simpa [scalarFieldOk, hv] using h
      exact ⟨doubleToSizeT (mxGetScalar val), by simp [h']⟩

/-- On a `scalarFieldOk` field, `struct_value` succeeds. -/
theorem struct_value_ok_of_scalarFieldOk (config : MxStruct) (name : String)
    (deflt : Rat) (h : scalarFieldOk config name = true) :
    ∃ v, struct_value config name deflt = Except.ok v := by
  unfold struct_value
  cases hv : mxGetField config name with
  | none => exact ⟨deflt, rfl⟩
  | some val =>
      have h' : isRealScalar val = true := by simpa [scalarFieldOk, hv] using h
      exact ⟨mxGetScalar val, by simp [h']⟩

/-- The scalar and count fields `load_parameters` extracts before the
kernel arrays. -/
def scalarCountFieldNames : List String :=
  ["n_iterations", "n_inner_iterations", "n_init_iterations", "verbose_level",
   "alpha", "beta", "noise"]

/-- C5: on a configuration whose `theta` and `s_theta` arrays have unequal
element counts (and whose scalar fields are absent or well formed, so that
extraction reaches the kernel check), `load_parameters` aborts with the
kernel-consistency error — no record, partially populated or otherwise, is
returned to the caller. -/
theorem load_parameters_theta_length_mismatch_fails
    (defaults : BoptParams) (config : MxStruct) (tv sv : MxArray)
    (hok : ∀ name ∈ scalarCountFieldNames, scalarFieldOk config name = true)
    (ht : mxGetField config "theta" = some tv)
    (hs : mxGetField config "s_theta" = some sv)
    (htn : tv.isNumeric = true) (htc : tv.isComplex = false)
    (hsn : sv.isNumeric = true) (hsc : sv.isComplex = false)
    (hne : mxGetM tv * mxGetN tv ≠ mxGetM sv * mxGetN sv) :
    load_parameters defaults config
      = .error (.errMsg "Error processing kernel parameters") := by
  obtain ⟨v1, e1⟩ := struct_size_ok_of_scalarFieldOk config "n_iterations"
    defaults.n_iterations (hok _ (by simp [scalarCountFieldNames]))
  obtain ⟨v2, e2⟩ := struct_size_ok_of_scalarFieldOk config "n_inner_iterations"
    defaults.n_inner_iterations (hok _ (by simp [scalarCountFieldNames]))
  obtain ⟨v3, e3⟩ := struct_size_ok_of_scalarFieldOk config "n_init_iterations"
    defaults.n_init_samples (hok _ (by simp [scalarCountFieldNames]))
  obtain ⟨v4, e4⟩ := struct_size_ok_of_scalarFieldOk config "verbose_level"
    defaults.verbose_level (hok _ (by simp [scalarCountFieldNames]))
  obtain ⟨v5, e5⟩ := struct_value_ok_of_scalarFieldOk config "alpha"
    defaults.alpha (hok _ (by simp [scalarCountFieldNames]))
  obtain ⟨v6, e6⟩ := struct_value_ok_of_scalarFieldOk config "beta"
    defaults.beta (hok _ (by simp [scalarCountFieldNames]))
  obtain ⟨v7, e7⟩ := struct_value_ok_of_scalarFieldOk config "noise"
    defaults.noise (hok _ (by simp [scalarCountFieldNames]))
  simp [load_parameters, e1, e2, e3, e4, e5, e6, e7, struct_array, ht, hs,
        htn, htc, hsn, hsc, except_bind_ok, except_bind_error, throw_eq_error,
        hne]

/-- A configuration with a 2-element `theta` and a 3-element `s_theta`. -/
def mismatchConfig : MxStruct :=
  [("theta", numArray 1 2 [1, 2]), ("s_theta", numArray 1 3 [1, 2, 3])]

/-- Witness for C5 on the concrete 2-vs-3 mismatch. -/
theorem load_parameters_theta_length_mismatch_witness :
    load_parameters initialize_parameters_to_default mismatchConfig
      = .error (.errMsg "Error processing kernel parameters") :=
  load_parameters_theta_length_mismatch_fails initialize_parameters_to_default
    mismatchConfig (numArray 1 2 [1, 2]) (numArray 1 3 [1, 2, 3])
    (by decide) rfl rfl rfl rfl rfl rfl (by decide)

/-- C8: the kernel length check compares the updated `kernel.n_theta`
against a local copy of the default length captured before extraction, so a
`theta` array whose count differs from the engine-default `n_theta` fails
the check even when `s_theta` is absent; likewise `mu` against the default
`n_mu` with `s_mu` absent.  Omitting `s_theta`/`s_mu` is therefore not
unconditionally non-fatal. -/
theorem load_parameters_stale_default_length_check :
    (∀ (defaults : BoptParams) (config : MxStruct) (tv : MxArray),
      (∀ name ∈ scalarCountFieldNames, scalarFieldOk config name = true) →
      mxGetField config "theta" = some tv →
      tv.isNumeric = true → tv.isComplex = false →
      mxGetM tv * mxGetN tv ≠ defaults.kernel.n_theta →
      mxGetField config "s_theta" = none →
      load_parameters defaults config
        = .error (.errMsg "Error processing kernel parameters"))
    ∧ (∀ (defaults : BoptParams) (config : MxStruct) (mv : MxArray),
      (∀ name ∈ scalarCountFieldNames, scalarFieldOk config name = true) →
      mxGetField config "theta" = none →
      mxGetField config "s_theta" = none →
      mxGetField config "mu" = some mv →
      mv.isNumeric = true → mv.isComplex = false →
      mxGetM mv * mxGetN mv ≠ defaults.mean.n_mu →
      mxGetField config "s_mu" = none →
      load_parameters defaults config
        = .error (.errMsg "Error processing mean parameters")) := by
  constructor
  · intro defaults config tv hok ht htn htc hne hsnone
    obtain ⟨v1, e1⟩ := struct_size_ok_of_scalarFieldOk config "n_iterations"
      defaults.n_iterations (hok _ (by simp [scalarCountFieldNames]))
    obtain ⟨v2, e2⟩ := struct_size_ok_of_scalarFieldOk config
      "n_inner_iterations" defaults.n_inner_iterations
      (hok _ (by simp [scalarCountFieldNames]))
    obtain ⟨v3, e3⟩ := struct_size_ok_of_scalarFieldOk config
      "n_init_iterations" defaults.n_init_samples
      (hok _ (by simp [scalarCountFieldNames]))
    obtain ⟨v4, e4⟩ := struct_size_ok_of_scalarFieldOk config "verbose_level"
      defaults.verbose_level (hok _ (by simp [scalarCountFieldNames]))
    obtain ⟨v5, e5⟩ := struct_value_ok_of_scalarFieldOk config "alpha"
      defaults.alpha (hok _ (by simp [scalarCountFieldNames]))
    obtain ⟨v6, e6⟩ := struct_value_ok_of_scalarFieldOk config "beta"
      defaults.beta (hok _ (by simp [scalarCountFieldNames]))
    obtain ⟨v7, e7⟩ := struct_value_ok_of_scalarFieldOk config "noise"
      defaults.noise (hok _ (by simp [scalarCountFieldNames]))
    simp [load_parameters, e1, e2, e3, e4, e5, e6, e7, struct_array, ht, htn,
          htc, hsnone, except_bind_ok, except_bind_error, throw_eq_error, hne]
  · intro defaults config mv hok htnone hsnone hm hmn hmc hne hsmnone
    obtain ⟨v1, e1⟩ := struct_size_ok_of_scalarFieldOk config "n_iterations"
      defaults.n_iterations (hok _ (by simp [scalarCountFieldNames]))
    obtain ⟨v2, e2⟩ := struct_size_ok_of_scalarFieldOk config
      "n_inner_iterations" defaults.n_inner_iterations
      (hok _ (by simp [scalarCountFieldNames]))
    obtain ⟨v3, e3⟩ := struct_size_ok_of_scalarFieldOk config
      "n_init_iterations" defaults.n_init_samples
      (hok _ (by simp [scalarCountFieldNames]))
    obtain ⟨v4, e4⟩ := struct_size_ok_of_scalarFieldOk config "verbose_level"
      defaults.verbose_level (hok _ (by simp [scalarCountFieldNames]))
    obtain ⟨v5, e5⟩ := struct_value_ok_of_scalarFieldOk config "alpha"
      defaults.alpha (hok _ (by simp [scalarCountFieldNames]))
    obtain ⟨v6, e6⟩ := struct_value_ok_of_scalarFieldOk config "beta"
      defaults.beta (hok _ (by simp [scalarCountFieldNames]))
    obtain ⟨v7, e7⟩ := struct_value_ok_of_scalarFieldOk config "noise"
      defaults.noise (hok _ (by simp [scalarCountFieldNames]))
    simp [load_parameters, e1, e2, e3, e4, e5, e6, e7, struct_array, htnone,
          hsnone, hm, hmn, hmc, hsmnone, except_bind_ok, except_bind_error,
          throw_eq_error, hne]

/-- A configuration supplying only a 2-element `theta` (default length 1,
`s_theta` absent). -/
def staleThetaConfig : MxStruct := [("theta", numArray 1 2 [1, 2])]

/-- A configuration supplying only a 2-element `mu` (default length 1,
`s_mu` absent). -/
def staleMuConfig : MxStruct := [("mu", numArray 1 2 [1, 2])]

/-- Witness for C8: both halves at concrete inputs — a lone 2-element
`theta` and a lone 2-element `mu` against defaults of length 1. -/
theorem load_parameters_stale_length_check_witness :
    load_parameters initialize_parameters_to_default staleThetaConfig
      = .error (.errMsg "Error processing kernel parameters")
    ∧ load_parameters initialize_parameters_to_default staleMuConfig
      = .error (.errMsg "Error processing mean parameters") :=
  ⟨load_parameters_stale_default_length_check.1
      initialize_parameters_to_default staleThetaConfig (numArray 1 2 [1, 2])
      (by decide) rfl rfl rfl (by decide) rfl,
   load_parameters_stale_default_length_check.2
      initialize_parameters_to_default staleMuConfig (numArray 1 2 [1, 2])
      (by decide) rfl rfl rfl rfl rfl (by decide) rfl⟩

/-- Whether an `Except` result is a success. -/
def exceptIsOk {α : Type} : Except MexErr α → Bool
  | .ok _ => true
  | .error _ => false

/-- C4 (amended): the evaluation counter is incremented exactly once on the
invocations that complete successfully, and left unchanged on every abort —
in particular, when gradient validation fails after the objective value has
been read, `mexErrMsgTxt` aborts the call before the `d->neval++` line, so
the counter is NOT incremented. -/
theorem user_function_neval_increment_iff_success (host : MexHost) (n : Nat)
    (x : List Rat) (wantGradient : Bool) (d : UserFunctionData) :
    (user_function host n x wantGradient d).state.neval =
      (if exceptIsOk (user_function host n x wantGradient d).value
       then d.neval + 1 else d.neval) := by
  simp only [user_function]
  (repeat' split) <;> simp_all [exceptIsOk]

/-- A host function returning a valid scalar 21/5 and a 2-element gradient,
whatever it is asked. -/
def gradFailHost : MexHost := fun _ _ _ _ =>
  some [realScalar (mkRat 21 5), numArray 1 2 [1, 2]]

/-- A fresh callback state for a 3-dimensional problem. -/
def callbackState0 : UserFunctionData :=
  { f := "objective", plhs0 := none, plhs1 := none,
    prhs := [numArray 1 3 [0, 0, 0]], xrhs := 0, nrhs := 1,
    verbose := false, neval := 0 }

/-- Counterexample to C4 as stated: on a call whose first result is
validated and read (the returned error is the gradient-size one, which is
only reached after the scalar step succeeded), the evaluation counter stays
at 0 instead of being incremented to 1. -/
theorem user_function_gradient_failure_skips_neval :
    (user_function gradFailHost 3 [1, 2, 3] true callbackState0).value
      = .error (.errMsg "gradient vector from user function is the wrong size")
    ∧ (user_function gradFailHost 3 [1, 2, 3] true callbackState0).state.neval
      = callbackState0.neval
    ∧ (user_function gradFailHost 3 [1, 2, 3] true callbackState0).state.neval
      ≠ callbackState0.neval + 1 :=
  ⟨rfl, rfl, by decide⟩

/-- The gradient-shape test of `user_function` on the second result:
`mxIsDouble && !mxIsComplex && (mxGetM == 1 || mxGetN == 1) &&
mxGetM * mxGetN == n`. -/
def gradientShapeOk (n : Nat) (r1 : MxArray) : Bool :=
  r1.isDouble && !r1.isComplex && (mxGetM r1 == 1 || mxGetN r1 == 1)
    && (mxGetM r1 * mxGetN r1 == n)

/-- C6: with a gradient requested on an `n`-dimensional point, when the
host's second result is not a real double vector of exactly `n` elements
the call aborts with the gradient-size error and the caller's gradient
buffer is never written; when it is, the call succeeds and exactly `n`
elements are copied into the gradient buffer. -/
theorem user_function_gradient_shape_checked (host : MexHost) (n : Nat)
    (x : List Rat) (d : UserFunctionData) (r0 r1 : MxArray)
    (hcall : host 2 d.nrhs (writePointBuffer n x d) d.f = some [r0, r1])
    (hr0 : isRealScalar r0 = true)
    (hwf : r1.re.length = mxGetM r1 * mxGetN r1) :
    (gradientShapeOk n r1 = false →
      (user_function host n x true d).value
        = .error (.errMsg "gradient vector from user function is the wrong size")
      ∧ (user_function host n x true d).gradientOut = none)
    ∧ (gradientShapeOk n r1 = true →
      (user_function host n x true d).value = .ok (mxGetScalar r0)
      ∧ (user_function host n x true d).gradientOut
          = some ((mxGetPr r1).take n)
      ∧ ((mxGetPr r1).take n).length = n) := by
  have hpw : writePointBuffer n x { d with plhs0 := none, plhs1 := none }
      = writePointBuffer n x d := rfl
  constructor
  · intro hbad
    have hng : (r1.isDouble && !r1.isComplex
        && (mxGetM r1 == 1 || mxGetN r1 == 1)
        && (mxGetM r1 * mxGetN r1 == n)) = false := by
      simpa [gradientShapeOk] using hbad
    constructor <;> simp [user_function, hpw, hcall, hr0, hng]
  · intro hgood
    have hg : (r1.isDouble && !r1.isComplex
        && (mxGetM r1 == 1 || mxGetN r1 == 1)
        && (mxGetM r1 * mxGetN r1 == n)) = true := by
      simpa [gradientShapeOk] using hgood
    have hmn : mxGetM r1 * mxGetN r1 = n := by
      have := hgood
      simp [gradientShapeOk] at this
      exact this.2
    refine ⟨?_, ?_, ?_⟩
    · simp [user_function, hpw, hcall, hr0, hg]
    · simp [user_function, hpw, hcall, hr0, hg]
    · simp [mxGetPr, List.length_take, hwf, hmn]

/-- A host function returning a valid scalar 21/5 and a 3-element
gradient. -/
def gradOkHost : MexHost := fun _ _ _ _ =>
  some [realScalar (mkRat 21 5), numArray 1 3 [7, 8, 9]]

/-- Witness for C6: a length-2 second result for a 3-dimensional point
aborts with the gradient-size error and the gradient buffer stays
untouched; a length-3 second result succeeds and 3 elements are copied. -/
theorem user_function_gradient_shape_witness :
    ((user_function gradFailHost 3 [1, 2, 3] true callbackState0).value
        = .error (.errMsg "gradient vector from user function is the wrong size")
      ∧ (user_function gradFailHost 3 [1, 2, 3] true callbackState0).gradientOut
        = none)
    ∧ ((user_function gradOkHost 3 [1, 2, 3] true callbackState0).value
        = .ok (mkRat 21 5)
      ∧ (user_function gradOkHost 3 [1, 2, 3] true callbackState0).gradientOut
        = some [7, 8, 9]
      ∧ ([(7 : Rat), 8, 9].length = 3)) :=
  ⟨(user_function_gradient_shape_checked gradFailHost 3 [1, 2, 3]
      callbackState0 (realScalar (mkRat 21 5)) (numArray 1 2 [1, 2])
      rfl rfl rfl).1 rfl,
   (user_function_gradient_shape_checked gradOkHost 3 [1, 2, 3]
      callbackState0 (realScalar (mkRat 21 5)) (numArray 1 3 [7, 8, 9])
      rfl rfl rfl).2 rfl⟩

/-- `listModify` leaves every index other than the modified one alone. -/
theorem listModify_getElem_ne (l : List MxArray) (j : Nat)
    (g : MxArray → MxArray) (i : Nat) (h : i ≠ j) :
    (listModify l j g)[i]? = l[i]? := by
  induction l generalizing i j with
  | nil => simp [listModify]
  | cons a t ih =>
      cases j with
      | zero =>
          cases i with
          | zero => exact absurd rfl h
          | succ k => simp [listModify]
      | succ jj =>
          cases i with
          | zero => simp [listModify]
          | succ k => simpa [listModify] using ih jj k (by omega)

/-- On every exit path of one `user_function` call, the function name, the
argument position, the argument count and the verbosity flag are unchanged,
and the argument slots are exactly the point-write image of the old ones. -/
theorem user_function_state_invariants (host : MexHost) (n : Nat)
    (x : List Rat) (g : Bool) (d : UserFunctionData) :
    (user_function host n x g d).state.f = d.f
    ∧ (user_function host n x g d).state.xrhs = d.xrhs
    ∧ (user_function host n x g d).state.nrhs = d.nrhs
    ∧ (user_function host n x g d).state.verbose = d.verbose
    ∧ (user_function host n x g d).state.prhs = writePointBuffer n x d := by
  simp only [user_function]
  (repeat' split) <;> exact ⟨rfl, rfl, rfl, rfl, rfl⟩

/-- C9: with gradient not requested, exactly one result is requested from
the host (the call's outcome only depends on the host's behaviour at
`nlhs = 1`), the caller's gradient buffer is never written, and the only
callback-state mutations are the outbound point slot at `xrhs`, the two
result slots, and the evaluation counter: `f`, `xrhs`, `nrhs`, `verbose`
and every other `prhs` slot are unchanged. -/
theorem user_function_no_gradient_frame (host1 host2 : MexHost) (n : Nat)
    (x : List Rat) (d : UserFunctionData)
    (hagree : ∀ nr pr fn, host1 1 nr pr fn = host2 1 nr pr fn) :
    user_function host1 n x false d = user_function host2 n x false d
    ∧ (user_function host1 n x false d).gradientOut = none
    ∧ (user_function host1 n x false d).state.f = d.f
    ∧ (user_function host1 n x false d).state.xrhs = d.xrhs
    ∧ (user_function host1 n x false d).state.nrhs = d.nrhs
    ∧ (user_function host1 n x false d).state.verbose = d.verbose
    ∧ ∀ i, i ≠ d.xrhs →
        (user_function host1 n x false d).state.prhs[i]? = d.prhs[i]? := by
  have hf := user_function_state_invariants host1 n x false d
  refine ⟨?_, ?_, hf.1, hf.2.1, hf.2.2.1, hf.2.2.2.1, ?_⟩
  · have hred : (if (false = true) then 2 else 1) = 1 := rfl
    simp only [user_function, hred]
    rw [hagree]
  · simp only [user_function]
    (repeat' split) <;> first | rfl | simp_all
  · intro i hi
    rw [hf.2.2.2.2]
    unfold writePointBuffer
    exact listModify_getElem_ne d.prhs d.xrhs _ i hi

/-- A second host for the C9 witness, agreeing with `gradOkHost` on
single-result calls (it is the same function). -/
def gradOkHostCopy : MexHost := fun nlhs nrhs prhs fname =>
  gradOkHost nlhs nrhs prhs fname

/-- Witness for C9 at a concrete host pair and callback state. -/
theorem user_function_no_gradient_frame_witness :
    user_function gradOkHost 3 [1, 2, 3] false callbackState0
      = user_function gradOkHostCopy 3 [1, 2, 3] false callbackState0
    ∧ (user_function gradOkHost 3 [1, 2, 3] false callbackState0).gradientOut
      = none
    ∧ (user_function gradOkHost 3 [1, 2, 3] false callbackState0).state.f
      = callbackState0.f
    ∧ (user_function gradOkHost 3 [1, 2, 3] false callbackState0).state.xrhs
      = callbackState0.xrhs
    ∧ (user_function gradOkHost 3 [1, 2, 3] false callbackState0).state.nrhs
      = callbackState0.nrhs
    ∧ (user_function gradOkHost 3 [1, 2, 3] false callbackState0).state.verbose
      = callbackState0.verbose
    ∧ ∀ i, i ≠ callbackState0.xrhs →
        (user_function gradOkHost 3 [1, 2, 3] false
          callbackState0).state.prhs[i]? = callbackState0.prhs[i]? :=
  user_function_no_gradient_frame gradOkHost gradOkHostCopy 3 [1, 2, 3]
    callbackState0 (fun _ _ _ => rfl)
